/-
Verification of the balance-ledger / withdrawal-approval backend
(Express + sqlite prototype).

The embedding below is a shallow model of the route handlers in the
backend source file.  Token amounts and balances (INTEGER columns of the
sqlite schema) are modelled as ℤ; the exchange rate and USD values (a
REAL column) as ℚ.  Every arithmetic operation the routes perform on
them (addition, subtraction, multiplication, comparison) is exact on
these values, so the model is faithful to the JavaScript arithmetic
involved.  SQL tables are modelled as Lean lists; a SQL
`UPDATE ... WHERE` is a `List.map` that rewrites every matching row,
exactly as SQL does.  The `username` column carries a UNIQUE constraint
and `id` columns are AUTOINCREMENT primary keys; theorems that need
at-most-one-match take these as explicit `Pairwise` hypotheses.
JavaScript truthiness (`x || 0`, `note || null`, `if (!id)`, `rate ? _ : _`)
is modelled by explicit helper functions.
-/
import Mathlib

namespace Bank

/-- Row of the `users` table: id, username (UNIQUE), password hash omitted,
is_admin, balance (an INTEGER column with no non-negativity constraint,
modelled as ℤ), frozen flag. -/
structure Account where
  id : Nat
  username : String
  balance : ℤ
  frozen : Bool
  isAdmin : Bool
deriving DecidableEq, Repr

/-- Withdrawal status column: the code writes only these three strings. -/
inductive WStatus where
  | pending
  | approved
  | rejected
deriving DecidableEq, Repr

/-- Row of the `withdrawals` table. -/
structure Withdrawal where
  id : Nat
  userId : Nat
  amount : ℤ
  targetAddress : String
  status : WStatus
  requestedAt : Nat
  processedAt : Option Nat
  adminId : Option Nat
  note : Option String
  amountUsd : ℚ
deriving DecidableEq, Repr

/-- The JSON `meta` blob each transaction insert stringifies. -/
inductive TxMeta where
  | deposit (method : String)
  | adminAdjust (by_ : String)
  | transferOut (dst : String)
  | transferIn (src : String)
  | withdrawal (target : String) (by_ : String) (externalTxid : Option String)
deriving DecidableEq, Repr

/-- Row of the `transactions` table.  `user_id` is nullable: the
admin-adjust route inserts NULL when the username matched no row. -/
structure Txn where
  userId : Option Nat
  type : String
  amount : ℤ
  meta : TxMeta
deriving DecidableEq, Repr

/-- The whole durable state the routes read and write.
`minWithdrawalUsd` models the `settings` row `min_withdrawal_usd`
(`none` = row absent); `nextWid` models the withdrawals AUTOINCREMENT
counter. -/
structure BankState where
  users : List Account
  withdrawals : List Withdrawal
  transactions : List Txn
  minWithdrawalUsd : Option ℚ
  nextWid : Nat
deriving DecidableEq, Repr

/-- Structured form of the error responses the routes return:
constructor = HTTP status class, fields = the JSON payload. -/
inductive ApiErr where
  | badRequest (msg : String)
  | forbidden (msg : String)
  | serverError (msg : String)
  | belowMinimum (amountUsd minUsd : ℚ)
deriving DecidableEq, Repr

/-- Views an `Except` as a sum, to derive decidable equality of results. -/
def exceptToSum {ε α : Type} : Except ε α → ε ⊕ α
  | .error e => .inl e
  | .ok a => .inr a

instance {ε α : Type} [DecidableEq ε] [DecidableEq α] : DecidableEq (Except ε α) :=
  fun a b =>
    decidable_of_iff (exceptToSum a = exceptToSum b)
      (by cases a <;> cases b <;> simp [exceptToSum])

/-- JS `note || null` for an optional string: the empty string is falsy. -/
def jsStrOrNull (s : Option String) : Option String :=
  match s with
  | some s => if s = "" then none else some s
  | none => none

/-- JS `x || 0` for an optional number: `null` and `0` both give `0`. -/
def jsNumOptOrZero (x : Option ℚ) : ℚ :=
  match x with
  | some v => if v = 0 then 0 else v
  | none => 0

/-- Models `SELECT ... FROM users WHERE id = ?` (first matching row). -/
def findUserById (users : List Account) (uid : Nat) : Option Account :=
  users.find? (fun a => decide (a.id = uid))

/-- Models `SELECT ... FROM users WHERE username = ?` (first matching row). -/
def findUserByName (users : List Account) (uname : String) : Option Account :=
  users.find? (fun a => decide (a.username = uname))

/-- Models `UPDATE users SET balance = balance + ? WHERE id = ?`. -/
def updBalById (users : List Account) (uid : Nat) (d : ℤ) : List Account :=
  users.map (fun a => if a.id = uid then { a with balance := a.balance + d } else a)

/-- Models `UPDATE users SET balance = balance + ? WHERE username = ?`. -/
def updBalByName (users : List Account) (uname : String) (d : ℤ) : List Account :=
  users.map (fun a => if a.username = uname then { a with balance := a.balance + d } else a)

/-- Balance of the (first) account with the given username, if any. -/
def balanceOf (st : BankState) (uname : String) : Option ℤ :=
  (findUserByName st.users uname).map (·.balance)

/-- Balance of the (first) account with the given id, if any. -/
def balanceOfId (st : BankState) (uid : Nat) : Option ℤ :=
  (findUserById st.users uid).map (·.balance)

/-! ## The in-memory rate cache (`fetchRateCached`) -/

/-- The module-level mutable pair `cachedRate` / `lastFetch`.
`cachedRate = none` models the JS `null` initial value. -/
structure RateCache where
  cachedRate : Option ℚ
  lastFetch : Nat
deriving DecidableEq, Repr

/-- JS truthiness of `cachedRate`: `null` and `0` are falsy. -/
def rateTruthy : Option ℚ → Bool
  | some r => decide (r ≠ 0)
  | none => false

/-- Result of one `fetchRateCached()` call: the returned value
(`none` = JS `null`), the cache state afterwards, and whether the
upstream price source was contacted. -/
structure FetchResult where
  value : Option ℚ
  cache : RateCache
  contacted : Bool
deriving DecidableEq, Repr

/-- Models `fetchRateCached()`.  Here `upstream` is the outcome of the HTTP fetch:
`some r` = response ok and the `usd` field present with value `r`;
`none` = network error, non-ok status, or field missing.  The source
treats a falsy (`0`) `usd` field as missing (`json[TOKEN_ID].usd ? ... :
null` followed by `throw`), so `some 0` also takes the failure path. -/
def fetchRateCached (ttl : Nat) (c : RateCache) (now : Nat) (upstream : Option ℚ) :
    FetchResult :=
  if rateTruthy c.cachedRate ∧ now - c.lastFetch < ttl then
    ⟨c.cachedRate, c, false⟩
  else
    match upstream with
    | some r =>
        if r = 0 then
          ⟨if rateTruthy c.cachedRate then c.cachedRate else none, c, true⟩
        else
          ⟨some r, ⟨some r, now⟩, true⟩
    | none =>
        ⟨if rateTruthy c.cachedRate then c.cachedRate else none, c, true⟩

/-! ## Route handlers -/

/-- Route `POST /api/deposit`: only `typeof amount === 'number'` is checked
(any rational passes), then the frozen flag; the balance is then
unconditionally incremented by `amount` and a `deposit` transaction
recorded. -/
def deposit (st : BankState) (uid : Nat) (amount : ℤ) : Except ApiErr BankState :=
  match findUserById st.users uid with
  | none => .error (.serverError "db error or user not found")
  | some u =>
      if u.frozen then .error (.forbidden "account frozen")
      else
        .ok { st with
              users := updBalById st.users uid amount,
              transactions := st.transactions ++
                [⟨some uid, "deposit", amount, TxMeta.deposit "simulated"⟩] }

/-- Route `POST /api/admin/adjust`: an `UPDATE` by username (no-op when the
username matches nothing), then a `SELECT id` whose possibly-NULL result
is inserted into the transactions table; the route answers ok in every
case (for a numeric amount; db failures are not modelled). -/
def adminAdjust (st : BankState) (actorName : String) (username : String)
    (amount : ℤ) : BankState :=
  let users' := updBalByName st.users username amount
  let uid := (findUserByName users' username).map (·.id)
  { st with
    users := users',
    transactions := st.transactions ++
      [⟨uid, "admin_adjust", amount, TxMeta.adminAdjust actorName⟩] }

/-- Route `POST /api/admin/transfer`.  The guard `!from || !to` rejects empty usernames;
then the positivity, existence, frozen and funds checks run in source
order; on success both balances are updated and the two transfer legs
are inserted with ids re-selected from the updated table (the re-select
cannot fail since the rows were found above and updates preserve
usernames; the empty-list branches are dead code kept for shape). -/
def adminTransfer (st : BankState) (from_ to_ : String) (amount : ℤ) :
    Except ApiErr BankState :=
  if from_ = "" ∨ to_ = "" then
    .error (.badRequest "from, to, and numeric amount required")
  else if amount ≤ 0 then .error (.badRequest "amount must be positive")
  else
    match findUserByName st.users from_ with
    | none => .error (.badRequest "from user not found")
    | some fromRow =>
        match findUserByName st.users to_ with
        | none => .error (.badRequest "to user not found")
        | some toRow =>
            if fromRow.frozen then .error (.forbidden "from account is frozen")
            else if toRow.frozen then .error (.forbidden "to account is frozen")
            else if fromRow.balance < amount then
              .error (.badRequest "insufficient funds in from account")
            else
              let users2 := updBalByName (updBalByName st.users from_ (-amount)) to_ amount
              let outLeg : List Txn :=
                match findUserByName users2 from_ with
                | some r1 => [⟨some r1.id, "transfer_out", -amount, TxMeta.transferOut to_⟩]
                | none => []
              let inLeg : List Txn :=
                match findUserByName users2 to_ with
                | some r2 => [⟨some r2.id, "transfer_in", amount, TxMeta.transferIn from_⟩]
                | none => []
              .ok { st with users := users2,
                            transactions := st.transactions ++ outLeg ++ inLeg }

/-- Insert of a fresh `pending` withdrawal row
(`INSERT INTO withdrawals ... amount_usd = amount_usd || 0`). -/
def mkPending (st : BankState) (uid : Nat) (amount : ℤ) (target : String)
    (amountUsd : Option ℚ) (now : Nat) : BankState :=
  { st with
    withdrawals := st.withdrawals ++
      [{ id := st.nextWid, userId := uid, amount := amount,
         targetAddress := target, status := .pending, requestedAt := now,
         processedAt := none, adminId := none, note := none,
         amountUsd := jsNumOptOrZero amountUsd }],
    nextWid := st.nextWid + 1 }

/-- Route `POST /api/withdraw/request`.  Here `rate` is the value `fetchRateCached`
returned (`none` = JS `null`); `amount_usd = rate ? amount * rate : null`
uses JS truthiness, so a zero rate also yields `null`.  The minimum check
runs only when `amount_usd` is non-null.  Returns the new state and the
`amount_usd` echoed in the response. -/
def withdrawRequest (st : BankState) (uid : Nat) (amount : ℤ)
    (targetAddress : String) (rate : Option ℚ) (now : Nat) :
    Except ApiErr (BankState × Option ℚ) :=
  if amount ≤ 0 then .error (.badRequest "amount must be a positive number")
  else if targetAddress = "" then .error (.badRequest "target_address required")
  else
    match findUserById st.users uid with
    | none => .error (.serverError "db error or user not found")
    | some u =>
        if u.frozen then .error (.forbidden "account frozen")
        else if u.balance < amount then .error (.badRequest "insufficient funds")
        else
          let amountUsd : Option ℚ :=
            match rate with
            | some r => if r = 0 then none else some ((amount : ℚ) * r)
            | none => none
          let minUsd : ℚ := jsNumOptOrZero st.minWithdrawalUsd
          match amountUsd with
          | some v =>
              if v < minUsd then .error (.belowMinimum v minUsd)
              else .ok (mkPending st uid amount targetAddress (some v) now, some v)
          | none => .ok (mkPending st uid amount targetAddress none now, none)

/-- Route `POST /api/admin/withdraws/approve`.  The guard `if (!id)` rejects id 0;
the row is loaded `WHERE id = ? AND status = 'pending'`; the owner is
re-loaded and re-checked; on success the debit, the status update and
the transaction insert happen in one sqlite transaction. -/
def adminApprove (st : BankState) (adminId : Nat) (adminName : String)
    (wid : Nat) (note : Option String) (externalTxid : Option String)
    (now : Nat) : Except ApiErr BankState :=
  if wid = 0 then .error (.badRequest "withdrawal id required")
  else
    match st.withdrawals.find?
        (fun w => decide (w.id = wid ∧ w.status = WStatus.pending)) with
    | none => .error (.badRequest "withdrawal not found or not pending")
    | some w =>
        match findUserById st.users w.userId with
        | none => .error (.badRequest "user not found")
        | some u =>
            if u.frozen then .error (.forbidden "user account frozen")
            else if u.balance < w.amount then
              .error (.badRequest "insufficient funds")
            else
              .ok { st with
                    users := updBalById st.users u.id (-w.amount),
                    withdrawals := st.withdrawals.map (fun x =>
                      if x.id = wid then
                        { x with status := .approved, processedAt := some now,
                                 adminId := some adminId,
                                 note := jsStrOrNull note,
                                 targetAddress := w.targetAddress,
                                 amountUsd := jsNumOptOrZero (some w.amountUsd) }
                      else x),
                    transactions := st.transactions ++
                      [⟨some u.id, "withdrawal", -w.amount,
                        TxMeta.withdrawal w.targetAddress adminName
                          (jsStrOrNull externalTxid)⟩] }

/-- Route `POST /api/admin/withdraws/reject`: one `UPDATE ... WHERE id = ? AND
status = 'pending'`; `this.changes === 0` is reported as
"withdrawal not found or not pending". -/
def adminReject (st : BankState) (adminId : Nat) (wid : Nat)
    (note : Option String) (now : Nat) : Except ApiErr BankState :=
  if wid = 0 then .error (.badRequest "withdrawal id required")
  else if st.withdrawals.countP
      (fun w => decide (w.id = wid ∧ w.status = WStatus.pending)) = 0 then
    .error (.badRequest "withdrawal not found or not pending")
  else
    .ok { st with
          withdrawals := st.withdrawals.map (fun w =>
            if w.id = wid ∧ w.status = WStatus.pending then
              { w with status := .rejected, processedAt := some now,
                       adminId := some adminId, note := jsStrOrNull note }
            else w) }

/-! ## Schema-level side conditions -/

/-- All balances non-negative. -/
def NonNegBalances (st : BankState) : Prop :=
  ∀ a ∈ st.users, 0 ≤ a.balance

/-- The UNIQUE constraint on `users.username`. -/
def UniqueUsernames (st : BankState) : Prop :=
  st.users.Pairwise (fun a b => a.username ≠ b.username)

/-- Column `users.id` is a primary key. -/
def UniqueUserIds (st : BankState) : Prop :=
  st.users.Pairwise (fun a b => a.id ≠ b.id)

/-- Column `withdrawals.id` is a primary key. -/
def UniqueWids (st : BankState) : Prop :=
  st.withdrawals.Pairwise (fun a b => a.id ≠ b.id)

instance (st : BankState) : Decidable (NonNegBalances st) :=
  List.decidableBAll _ _

instance (st : BankState) : Decidable (UniqueUsernames st) :=
  List.instDecidablePairwise _

instance (st : BankState) : Decidable (UniqueUserIds st) :=
  List.instDecidablePairwise _

instance (st : BankState) : Decidable (UniqueWids st) :=
  List.instDecidablePairwise _

/-! ## Concrete states used by the witness and counterexample theorems -/

/-- Lookup of a withdrawal row by id (first matching row). -/
def findWithdrawal (ws : List Withdrawal) (wid : Nat) : Option Withdrawal :=
  ws.find? (fun x => decide (x.id = wid))
/-- The deposit post-state: balance increased by `amount`, one `deposit`
transaction appended. -/
def depositPost (st : BankState) (uid : Nat) (amount : ℤ) : BankState :=
  { st with users := updBalById st.users uid amount,
            transactions := st.transactions ++
              [⟨some uid, "deposit", amount, TxMeta.deposit "simulated"⟩] }
namespace C1states

/-- One ordinary account with balance 0. -/
def st0 : BankState :=
  { users := [⟨1, "alice", 0, false, false⟩], withdrawals := [], transactions := [],
    minWithdrawalUsd := some 40, nextWid := 1 }

/-- State `st0` after a deposit of −100. -/
def st0' : BankState :=
  { st0 with
    users := [⟨1, "alice", -100, false, false⟩],
    transactions := [⟨some 1, "deposit", -100, TxMeta.deposit "simulated"⟩] }

/-- Two accounts for the preservation witness. -/
def stT : BankState :=
  { users := [⟨1, "alice", 10, false, false⟩, ⟨2, "bob", 5, false, false⟩],
    withdrawals := [], transactions := [], minWithdrawalUsd := some 40, nextWid := 1 }

/-- State `stT` after transferring 7 from alice to bob. -/
def stT' : BankState :=
  { stT with
    users := [⟨1, "alice", 3, false, false⟩, ⟨2, "bob", 12, false, false⟩],
    transactions := [⟨some 1, "transfer_out", -7, TxMeta.transferOut "bob"⟩,
                     ⟨some 2, "transfer_in", 7, TxMeta.transferIn "alice"⟩] }

end C1states
namespace C2states

/-- A state holding one already-approved withdrawal. -/
def st : BankState :=
  { users := [⟨1, "alice", 1000, false, false⟩],
    withdrawals := [⟨1, 1, 50, "addr", .approved, 5, some 6, some 9, none, 50⟩],
    transactions := [], minWithdrawalUsd := some 40, nextWid := 2 }

end C2states
namespace C3states

/-- Balance 1000, one pending 50-unit withdrawal (the spec scenario). -/
def st : BankState :=
  { users := [⟨1, "alice", 1000, false, false⟩],
    withdrawals := [⟨1, 1, 50, "addr", .pending, 5, none, none, none, 50⟩],
    transactions := [], minWithdrawalUsd := some 40, nextWid := 2 }

/-- The pending row of `st`. -/
def w0 : Withdrawal := ⟨1, 1, 50, "addr", .pending, 5, none, none, none, 50⟩

/-- The owner row of `st`. -/
def u0 : Account := ⟨1, "alice", 1000, false, false⟩

end C3states
namespace C4states

/-- Owner frozen, and a variant with balance 10 below the 50 request. -/
def st : BankState :=
  { users := [⟨1, "alice", 10, false, false⟩],
    withdrawals := [⟨1, 1, 50, "addr", .pending, 5, none, none, none, 50⟩],
    transactions := [], minWithdrawalUsd := some 40, nextWid := 2 }

end C4states
namespace C5states

/-- Balance 1000, minimum 60 (the spec rejection scenario). -/
def st : BankState :=
  { users := [⟨1, "alice", 1000, false, false⟩],
    withdrawals := [], transactions := [], minWithdrawalUsd := some 60, nextWid := 1 }

end C5states
namespace C6states

/-- Balance 1000, minimum 40, no rate available. -/
def st : BankState :=
  { users := [⟨1, "alice", 1000, false, false⟩],
    withdrawals := [], transactions := [], minWithdrawalUsd := some 40, nextWid := 1 }

end C6states
namespace C8states

/-- One unfrozen account with balance 10. -/
def st : BankState :=
  { users := [⟨2, "bob", 10, false, false⟩],
    withdrawals := [], transactions := [], minWithdrawalUsd := some 40, nextWid := 1 }

/-- State `st` after a deposit of −5. -/
def st' : BankState :=
  { st with users := [⟨2, "bob", 5, false, false⟩],
            transactions := [⟨some 2, "deposit", -5, TxMeta.deposit "simulated"⟩] }

end C8states
namespace C9states

/-- Source balance 950, destination frozen with balance 200 (the spec
scenario). -/
def st : BankState :=
  { users := [⟨1, "alice", 950, false, false⟩, ⟨2, "bob", 200, true, false⟩],
    withdrawals := [], transactions := [], minWithdrawalUsd := some 40, nextWid := 1 }

end C9states
namespace C10states

/-- One account; the adjust below names a username that matches nothing. -/
def st : BankState :=
  { users := [⟨1, "alice", 0, false, false⟩],
    withdrawals := [], transactions := [], minWithdrawalUsd := some 40, nextWid := 1 }

end C10states

end Bank

namespace Bank

/-- In a list pairwise-distinct under a key `f`, two members with equal
keys are the same element. -/
theorem eq_of_pairwise_key {α β : Type} {f : α → β} {l : List α}
    (hp : l.Pairwise (fun x y => f x ≠ f y)) {a b : α}
    (ha : a ∈ l) (hb : b ∈ l) (h : f a = f b) : a = b := by
  induction l with
  | nil => cases ha
  | cons c t ih =>
    rcases List.pairwise_cons.mp hp with ⟨hc, ht⟩
    rcases List.mem_cons.mp ha with rfl | ha'
    · rcases List.mem_cons.mp hb with rfl | hb'
      · rfl
      · exact absurd h (hc b hb')
    · rcases List.mem_cons.mp hb with rfl | hb'
      · exact absurd h.symm (hc a ha')
      · exact ih ht ha' hb'

/-- A balance update by username commutes with lookup by username. -/
theorem findUserByName_updBalByName (users : List Account) (n m : String) (d : ℤ) :
    findUserByName (updBalByName users n d) m =
      (findUserByName users m).map
        (fun a => if a.username = n then { a with balance := a.balance + d } else a) := by
  unfold findUserByName updBalByName
  rw [List.find?_map]
  have hfun : ((fun a => decide (a.username = m)) ∘ fun a : Account =>
      if a.username = n then { a with balance := a.balance + d } else a) =
      (fun a : Account => decide (a.username = m)) := by
    funext a
    by_cases h : a.username = n <;> simp [h]
  rw [hfun]

/-- A balance update by id commutes with lookup by id. -/
theorem findUserById_updBalById (users : List Account) (i j : Nat) (d : ℤ) :
    findUserById (updBalById users i d) j =
      (findUserById users j).map
        (fun a => if a.id = i then { a with balance := a.balance + d } else a) := by
  unfold findUserById updBalById
  rw [List.find?_map]
  have hfun : ((fun a => decide (a.id = j)) ∘ fun a : Account =>
      if a.id = i then { a with balance := a.balance + d } else a) =
      (fun a : Account => decide (a.id = j)) := by
    funext a
    by_cases h : a.id = i <;> simp [h]
  rw [hfun]

/-- The username a `findUserByName` hit carries. -/
theorem username_of_find {users : List Account} {m : String} {a : Account}
    (h : findUserByName users m = some a) : a.username = m := by
  have := List.find?_some h
  simpa using this

/-- The id a `findUserById` hit carries. -/
theorem id_of_find {users : List Account} {i : Nat} {a : Account}
    (h : findUserById users i = some a) : a.id = i := by
  have := List.find?_some h
  simpa using this

/-- Success inversion for `adminTransfer` (the parts the invariants need). -/
theorem adminTransfer_ok {st : BankState} {f t : String} {amt : ℤ} {st' : BankState}
    (h : adminTransfer st f t amt = .ok st') :
    0 < amt ∧
    ∃ fromRow toRow,
      findUserByName st.users f = some fromRow ∧
      findUserByName st.users t = some toRow ∧
      fromRow.frozen = false ∧ toRow.frozen = false ∧ amt ≤ fromRow.balance ∧
      st'.users = updBalByName (updBalByName st.users f (-amt)) t amt := by
  unfold adminTransfer at h
  split at h
  · exact absurd h (by simp)
  split at h
  · exact absurd h (by simp)
  next hpos =>
  split at h
  · exact absurd h (by simp)
  next fromRow hfrom =>
  split at h
  · exact absurd h (by simp)
  next toRow hto =>
  split at h
  · exact absurd h (by simp)
  next hff =>
  split at h
  · exact absurd h (by simp)
  next htf =>
  split at h
  · exact absurd h (by simp)
  next hbal =>
  simp only [Except.ok.injEq] at h
  refine ⟨by omega, fromRow, toRow, hfrom, hto, by simpa using hff, by simpa using htf,
    by omega, ?_⟩
  rw [← h]

/-- Success inversion for `adminApprove` (the parts the invariants need). -/
theorem adminApprove_ok {st : BankState} {aid : Nat} {an : String} {wid : Nat}
    {note ext : Option String} {now : Nat} {st' : BankState}
    (h : adminApprove st aid an wid note ext now = .ok st') :
    ∃ w u,
      st.withdrawals.find? (fun x => decide (x.id = wid ∧ x.status = WStatus.pending)) = some w ∧
      findUserById st.users w.userId = some u ∧
      u.frozen = false ∧ w.amount ≤ u.balance ∧
      st'.users = updBalById st.users u.id (-w.amount) := by
  unfold adminApprove at h
  split at h
  · exact absurd h (by simp)
  split at h
  · exact absurd h (by simp)
  next w hw =>
  split at h
  · exact absurd h (by simp)
  next u hu =>
  split at h
  · exact absurd h (by simp)
  next huf =>
  split at h
  · exact absurd h (by simp)
  next hub =>
  simp only [Except.ok.injEq] at h
  refine ⟨w, u, hw, hu, by simpa using huf, by omega, ?_⟩
  rw [← h]

/-- Success inversion for `withdrawRequest`: the users table is untouched. -/
theorem withdrawRequest_ok_users {st : BankState} {uid : Nat} {amt : ℤ}
    {tgt : String} {rate : Option ℚ} {now : Nat} {st' : BankState} {v : Option ℚ}
    (h : withdrawRequest st uid amt tgt rate now = .ok (st', v)) :
    st'.users = st.users := by
  unfold withdrawRequest at h
  split at h
  · exact absurd h (by simp)
  split at h
  · exact absurd h (by simp)
  split at h
  · exact absurd h (by simp)
  next u hu =>
  split at h
  · exact absurd h (by simp)
  split at h
  · exact absurd h (by simp)
  cases rate with
  | none =>
      simp only [Except.ok.injEq, Prod.mk.injEq] at h
      rw [← h.1]
      rfl
  | some r =>
      by_cases hr : r = 0
      · simp only [hr, if_pos] at h
        simp only [Except.ok.injEq, Prod.mk.injEq] at h
        rw [← h.1]
        rfl
      · simp only [if_neg hr] at h
        split at h
        · exact absurd h (by simp)
        · simp only [Except.ok.injEq, Prod.mk.injEq] at h
          rw [← h.1]
          rfl

end Bank

namespace Bank


/-- C1 counterexample: a deposit of −100 on an unfrozen account with
balance 0 is *accepted* (no `InsufficientFundsError`) and leaves the
account with balance −100 < 0. -/
theorem C1_counterexample :
    deposit C1states.st0 1 (-100) = .ok C1states.st0' ∧
    balanceOfId C1states.st0' 1 = some (-100) ∧ (-100 : ℤ) < 0 := by
  refine ⟨?_, by decide, by decide⟩
  decide

/-- C1 (amended): `withdraw/request`, `admin/withdraws/approve` and
`admin/transfer` preserve non-negativity of every balance (their
insufficient-funds guards reject, with no state change, any attempt
that would overdraw); `deposit` and `admin/adjust` have no such guard. -/
theorem C1_nonneg_preservation (st : BankState)
    (hu : UniqueUsernames st) (hi : UniqueUserIds st) (hnn : NonNegBalances st) :
    (∀ f t amt st', adminTransfer st f t amt = .ok st' → NonNegBalances st') ∧
    (∀ aid an wid note ext now st',
        adminApprove st aid an wid note ext now = .ok st' → NonNegBalances st') ∧
    (∀ uid amt tgt rate now st' v,
        withdrawRequest st uid amt tgt rate now = .ok (st', v) → NonNegBalances st') := by
  refine ⟨?_, ?_, ?_⟩
  · intro f t amt st' h
    obtain ⟨hamt, fromRow, toRow, hfrom, hto, hff, htf, hbal, husers⟩ := adminTransfer_ok h
    intro x hx
    rw [husers] at hx
    unfold updBalByName at hx
    rcases List.mem_map.mp hx with ⟨y, hy, rfl⟩
    rcases List.mem_map.mp hy with ⟨a, ha, rfl⟩
    have h0 : 0 ≤ a.balance := hnn a ha
    have hfromMem := List.mem_of_find?_eq_some hfrom
    have hfromName := username_of_find hfrom
    by_cases hf2 : a.username = f
    · have haf : a = fromRow := eq_of_pairwise_key hu ha hfromMem (by rw [hf2, hfromName])
      have hab : amt ≤ a.balance := by rw [haf]; exact hbal
      rw [if_pos hf2]
      by_cases ht2 : a.username = t
      · rw [if_pos ht2]
        dsimp only
        omega
      · rw [if_neg ht2]
        dsimp only
        omega
    · rw [if_neg hf2]
      by_cases ht2 : a.username = t
      · rw [if_pos ht2]
        dsimp only
        omega
      · rw [if_neg ht2]
        exact h0
  · intro aid an wid note ext now st' h
    obtain ⟨w, u, hw, hu', huf, hub, husers⟩ := adminApprove_ok h
    intro x hx
    rw [husers] at hx
    unfold updBalById at hx
    rcases List.mem_map.mp hx with ⟨a, ha, rfl⟩
    have h0 : 0 ≤ a.balance := hnn a ha
    have huMem := List.mem_of_find?_eq_some hu'
    by_cases hid2 : a.id = u.id
    · have hau : a = u := eq_of_pairwise_key hi ha huMem hid2
      have hab : w.amount ≤ a.balance := by rw [hau]; exact hub
      rw [if_pos hid2]
      dsimp only
      omega
    · rw [if_neg hid2]
      exact h0
  · intro uid amt tgt rate now st' v h
    intro x hx
    rw [withdrawRequest_ok_users h] at hx
    exact hnn x hx

/-- Witness for C1: the preservation theorem applied to a concrete
transfer of 7 between balances 10 and 5. -/
theorem C1_nonneg_preservation_witness : NonNegBalances C1states.stT' :=
  (C1_nonneg_preservation C1states.stT (by decide) (by decide) (by decide)).1
    "alice" "bob" 7 C1states.stT' (by decide)

/-- Under unique withdrawal ids, the row found by
`WHERE id = ? AND status = 'pending'` is also the row `WHERE id = ?` finds. -/
theorem findWithdrawal_of_find_pending {st : BankState} {wid : Nat} {w : Withdrawal}
    (huw : UniqueWids st)
    (hw : st.withdrawals.find?
      (fun x => decide (x.id = wid ∧ x.status = WStatus.pending)) = some w) :
    findWithdrawal st.withdrawals wid = some w := by
  have hmem := List.mem_of_find?_eq_some hw
  have hprop := List.find?_some hw
  simp only [decide_eq_true_eq] at hprop
  unfold findWithdrawal
  cases hfind : st.withdrawals.find? (fun x => decide (x.id = wid)) with
  | none =>
      rw [List.find?_eq_none] at hfind
      have := hfind w hmem
      simp only [decide_eq_true_eq] at this
      exact absurd hprop.1 this
  | some y =>
      have hymem := List.mem_of_find?_eq_some hfind
      have hyid := List.find?_some hfind
      simp only [decide_eq_true_eq] at hyid
      have hyw : y = w := eq_of_pairwise_key huw hymem hmem (by rw [hyid, hprop.1])
      rw [hyw]

/-- Lookup by id commutes with an id-preserving row rewrite. -/
theorem findWithdrawal_map {ws : List Withdrawal} {wid : Nat} {g : Withdrawal → Withdrawal}
    (hg : ∀ x, (g x).id = x.id) :
    findWithdrawal (ws.map g) wid = (findWithdrawal ws wid).map g := by
  unfold findWithdrawal
  rw [List.find?_map]
  have hfun : ((fun x => decide (x.id = wid)) ∘ g) =
      (fun x : Withdrawal => decide (x.id = wid)) := by
    funext x
    simp [hg x]
  rw [hfun]


/-- C2: a withdrawal whose status is `approved` or `rejected` (anything but
`pending`) can be neither approved nor rejected again: both admin routes
answer the not-found/not-pending error, and, being pure failures, return no
new state — status, balances and the transaction log are untouched. -/
theorem C2_terminal_immutable (st : BankState) (w : Withdrawal)
    (hmem : w ∈ st.withdrawals) (hterm : w.status ≠ WStatus.pending)
    (huw : UniqueWids st) (hid : w.id ≠ 0)
    (aid : Nat) (an : String) (note ext : Option String) (now : Nat) :
    adminApprove st aid an w.id note ext now =
      .error (.badRequest "withdrawal not found or not pending") ∧
    adminReject st aid w.id note now =
      .error (.badRequest "withdrawal not found or not pending") := by
  have hall : ∀ x ∈ st.withdrawals,
      ¬((fun x => decide (x.id = w.id ∧ x.status = WStatus.pending)) x = true) := by
    intro x hx
    simp only [decide_eq_true_eq, not_and]
    intro hxid hxs
    have hxw : x = w := eq_of_pairwise_key huw hx hmem hxid
    rw [hxw] at hxs
    exact hterm hxs
  have hnone : st.withdrawals.find?
      (fun x => decide (x.id = w.id ∧ x.status = WStatus.pending)) = none :=
    List.find?_eq_none.mpr hall
  have hcount : st.withdrawals.countP
      (fun x => decide (x.id = w.id ∧ x.status = WStatus.pending)) = 0 :=
    List.countP_eq_zero.mpr hall
  constructor
  · unfold adminApprove
    rw [if_neg hid, hnone]
  · unfold adminReject
    rw [if_neg hid, if_pos hcount]

/-- Witness for C2 at the concrete approved withdrawal. -/
theorem C2_terminal_immutable_witness :
    adminApprove C2states.st 9 "root" 1 none none 10 =
      .error (.badRequest "withdrawal not found or not pending") ∧
    adminReject C2states.st 9 1 none 10 =
      .error (.badRequest "withdrawal not found or not pending") :=
  C2_terminal_immutable C2states.st
    ⟨1, 1, 50, "addr", .approved, 5, some 6, some 9, none, 50⟩
    (by decide) (by decide) (by decide) (by decide) 9 "root" none none 10

/-- C3: approving a pending withdrawal on an unfrozen owner with
sufficient balance succeeds and, in one step, debits the owner by the
requested amount, marks the withdrawal `approved` with processed
timestamp, administrator reference and note, and appends exactly one
`withdrawal` transaction of amount `-w.amount`. -/
theorem C3_approve_success (st : BankState) (aid : Nat) (an : String)
    (w : Withdrawal) (u : Account) (note ext : Option String) (now : Nat)
    (huw : UniqueWids st) (hid : w.id ≠ 0)
    (hw : st.withdrawals.find?
      (fun x => decide (x.id = w.id ∧ x.status = WStatus.pending)) = some w)
    (hu : findUserById st.users w.userId = some u)
    (hf : u.frozen = false) (hb : ¬ u.balance < w.amount) :
    ∃ st', adminApprove st aid an w.id note ext now = .ok st' ∧
      balanceOfId st' w.userId = some (u.balance - w.amount) ∧
      findWithdrawal st'.withdrawals w.id = some
        { w with status := WStatus.approved, processedAt := some now,
                 adminId := some aid, note := jsStrOrNull note,
                 amountUsd := jsNumOptOrZero (some w.amountUsd) } ∧
      st'.transactions = st.transactions ++
        [⟨some u.id, "withdrawal", -w.amount,
          TxMeta.withdrawal w.targetAddress an (jsStrOrNull ext)⟩] := by
  have hrun : adminApprove st aid an w.id note ext now = .ok
      { st with
        users := updBalById st.users u.id (-w.amount),
        withdrawals := st.withdrawals.map (fun x =>
          if x.id = w.id then
            { x with status := WStatus.approved, processedAt := some now,
                     adminId := some aid, note := jsStrOrNull note,
                     targetAddress := w.targetAddress,
                     amountUsd := jsNumOptOrZero (some w.amountUsd) }
          else x),
        transactions := st.transactions ++
          [⟨some u.id, "withdrawal", -w.amount,
            TxMeta.withdrawal w.targetAddress an (jsStrOrNull ext)⟩] } := by
    unfold adminApprove
    rw [if_neg hid, hw]
    simp only [hu, hf, hb]
    simp
  refine ⟨_, hrun, ?_, ?_, rfl⟩
  · unfold balanceOfId
    dsimp only
    rw [findUserById_updBalById, hu]
    simp [sub_eq_add_neg]
  · dsimp only
    have hg : ∀ x : Withdrawal, ((fun x =>
        if x.id = w.id then
          { x with status := WStatus.approved, processedAt := some now,
                   adminId := some aid, note := jsStrOrNull note,
                   targetAddress := w.targetAddress,
                   amountUsd := jsNumOptOrZero (some w.amountUsd) }
        else x) x).id = x.id := by
      intro x
      dsimp only
      by_cases h : x.id = w.id
      · rw [if_pos h]
      · rw [if_neg h]
    rw [findWithdrawal_map hg, findWithdrawal_of_find_pending huw hw]
    simp

/-- Witness for C3: the spec scenario (balance 1000, pending 50) run
through the theorem: balance 950, `approved`, one −50 `withdrawal` record. -/
theorem C3_approve_success_witness :
    ∃ st', adminApprove C3states.st 9 "root" C3states.w0.id none none 10 = .ok st' ∧
      balanceOfId st' C3states.w0.userId =
        some (C3states.u0.balance - C3states.w0.amount) ∧
      findWithdrawal st'.withdrawals C3states.w0.id = some
        { C3states.w0 with status := WStatus.approved, processedAt := some 10,
                           adminId := some 9, note := jsStrOrNull none,
                           amountUsd := jsNumOptOrZero (some C3states.w0.amountUsd) } ∧
      st'.transactions = C3states.st.transactions ++
        [⟨some C3states.u0.id, "withdrawal", -C3states.w0.amount,
          TxMeta.withdrawal C3states.w0.targetAddress "root" (jsStrOrNull none)⟩] :=
  C3_approve_success C3states.st 9 "root" C3states.w0 C3states.u0 none none 10
    (by decide) (by decide) (by decide) (by decide) (by decide) (by decide)


/-- C4: if at approval time the owner is frozen the approve route fails
with the frozen-account error, and if the owner is unfrozen but the
balance is below the amount it fails with the insufficient-funds error;
both are pure failures, so the withdrawal stays `pending`, the balance
is untouched and no transaction is appended. -/
theorem C4_approve_failure (st : BankState) (aid : Nat) (an : String)
    (w : Withdrawal) (u : Account) (note ext : Option String) (now : Nat)
    (hid : w.id ≠ 0)
    (hw : st.withdrawals.find?
      (fun x => decide (x.id = w.id ∧ x.status = WStatus.pending)) = some w)
    (hu : findUserById st.users w.userId = some u) :
    (u.frozen = true →
      adminApprove st aid an w.id note ext now =
        .error (.forbidden "user account frozen")) ∧
    (u.frozen = false → u.balance < w.amount →
      adminApprove st aid an w.id note ext now =
        .error (.badRequest "insufficient funds")) := by
  constructor
  · intro hfroz
    unfold adminApprove
    rw [if_neg hid, hw]
    simp [hu, hfroz]
  · intro hfroz hlow
    unfold adminApprove
    rw [if_neg hid, hw]
    simp [hu, hfroz, hlow]

/-- Witness for C4: pending 50-unit withdrawal against balance 10 is
rejected with the insufficient-funds error. -/
theorem C4_approve_failure_witness :
    adminApprove C4states.st 9 "root" 1 none none 10 =
      .error (.badRequest "insufficient funds") :=
  (C4_approve_failure C4states.st 9 "root"
    ⟨1, 1, 50, "addr", .pending, 5, none, none, none, 50⟩
    ⟨1, "alice", 10, false, false⟩ none none 10
    (by decide) (by decide) (by decide)).2 (by decide) (by decide)

/-- C5: with a rate available (non-null, and the code never caches 0),
a valid withdrawal request whose estimated USD value `amount * rate`
is below the configured minimum is rejected with an error carrying both
the computed value and the floor; the pure failure creates no withdrawal
and changes nothing. -/
theorem C5_below_minimum (st : BankState) (uid : Nat) (amt : ℤ) (tgt : String)
    (r : ℚ) (now : Nat) (u : Account)
    (hamt : 0 < amt) (htgt : tgt ≠ "")
    (hu : findUserById st.users uid = some u)
    (hf : u.frozen = false) (hb : ¬ u.balance < amt)
    (hr : r ≠ 0)
    (hlt : (amt : ℚ) * r < jsNumOptOrZero st.minWithdrawalUsd) :
    withdrawRequest st uid amt tgt (some r) now =
      .error (.belowMinimum ((amt : ℚ) * r) (jsNumOptOrZero st.minWithdrawalUsd)) := by
  unfold withdrawRequest
  rw [if_neg (by omega), if_neg htgt, hu]
  simp [hf, hb, hr, hlt]

/-- Witness for C5: amount 50, rate 1, minimum 60 — rejected with
value 50 and floor 60. -/
theorem C5_below_minimum_witness :
    withdrawRequest C5states.st 1 50 "addr" (some 1) 7 =
      .error (.belowMinimum (((50 : ℤ) : ℚ) * 1) (jsNumOptOrZero (some 60))) :=
  C5_below_minimum C5states.st 1 50 "addr" 1 7 ⟨1, "alice", 1000, false, false⟩
    (by decide) (by decide) (by decide) (by decide) (by decide) (by decide)
    (by norm_num [C5states.st, jsNumOptOrZero])


/-- C6: when the rate is unknown (`null`), a valid request skips the
minimum-value check entirely and creates a `pending` withdrawal whose
USD-value snapshot is stored as 0; the users table — hence every
balance — is untouched (no hold is placed). -/
theorem C6_rate_unknown (st : BankState) (uid : Nat) (amt : ℤ) (tgt : String)
    (now : Nat) (u : Account)
    (hamt : 0 < amt) (htgt : tgt ≠ "")
    (hu : findUserById st.users uid = some u)
    (hf : u.frozen = false) (hb : ¬ u.balance < amt) :
    withdrawRequest st uid amt tgt none now =
      .ok (mkPending st uid amt tgt none now, none) ∧
    (mkPending st uid amt tgt none now).users = st.users ∧
    (mkPending st uid amt tgt none now).withdrawals =
      st.withdrawals ++
        [⟨st.nextWid, uid, amt, tgt, WStatus.pending, now, none, none, none, 0⟩] := by
  refine ⟨?_, rfl, rfl⟩
  unfold withdrawRequest
  rw [if_neg (by omega), if_neg htgt, hu]
  simp [hf, hb]

/-- Witness for C6: a 50-unit request with no rate becomes pending with
snapshot 0 and leaves the users table unchanged. -/
theorem C6_rate_unknown_witness :
    withdrawRequest C6states.st 1 50 "addr" none 7 =
      .ok (mkPending C6states.st 1 50 "addr" none 7, none) ∧
    (mkPending C6states.st 1 50 "addr" none 7).users = C6states.st.users ∧
    (mkPending C6states.st 1 50 "addr" none 7).withdrawals =
      C6states.st.withdrawals ++
        [⟨C6states.st.nextWid, 1, 50, "addr", WStatus.pending, 7, none, none, none, 0⟩] :=
  C6_rate_unknown C6states.st 1 50 "addr" 7 ⟨1, "alice", 1000, false, false⟩
    (by decide) (by decide) (by decide) (by decide) (by decide)

/-- C7: rate-cache behaviour.  With a value `v` cached at `lastFetch`:
before the TTL elapses the call returns `v` without contacting the
upstream source and without touching the cache; once the TTL has
elapsed the upstream is contacted, and if that fetch fails the cached
value is returned and the cache state is unchanged; with no cached
value, a failing fetch returns `null` (absence, not an error). -/
theorem C7_rate_cache (ttl : Nat) (c : RateCache) (now : Nat) (v : ℚ) :
    (c.cachedRate = some v → v ≠ 0 → c.lastFetch ≤ now → now < c.lastFetch + ttl →
      ∀ upstream, fetchRateCached ttl c now upstream = ⟨some v, c, false⟩) ∧
    (c.cachedRate = some v → v ≠ 0 → c.lastFetch + ttl ≤ now →
      (∀ upstream, (fetchRateCached ttl c now upstream).contacted = true) ∧
      fetchRateCached ttl c now none = ⟨some v, c, true⟩) ∧
    (c.cachedRate = none → fetchRateCached ttl c now none = ⟨none, c, true⟩) := by
  refine ⟨?_, ?_, ?_⟩
  · intro hv hv0 hle hlt upstream
    unfold fetchRateCached
    rw [if_pos ⟨by simp [rateTruthy, hv, hv0], by omega⟩, hv]
  · intro hv hv0 hge
    have hcond : ¬(rateTruthy c.cachedRate = true ∧ now - c.lastFetch < ttl) := by
      rintro ⟨-, hlt⟩
      omega
    constructor
    · intro upstream
      unfold fetchRateCached
      rw [if_neg hcond]
      cases upstream with
      | none => rfl
      | some r =>
          by_cases hr : r = 0
          · simp [hr]
          · simp [hr]
    · unfold fetchRateCached
      rw [if_neg hcond]
      simp [rateTruthy, hv, hv0]
  · intro hv
    unfold fetchRateCached
    rw [if_neg (by simp [rateTruthy, hv])]
    simp [rateTruthy, hv]

/-- Witness for C7: TTL 60, value 1 cached at 100 — a call at 130 is
served from the cache with no upstream contact; a failing refresh at
200 returns the old value unchanged; an empty cache with a failing
fetch yields `null`. -/
theorem C7_rate_cache_witness :
    fetchRateCached 60 ⟨some 1, 100⟩ 130 (some 2) = ⟨some 1, ⟨some 1, 100⟩, false⟩ ∧
    fetchRateCached 60 ⟨some 1, 100⟩ 200 none = ⟨some 1, ⟨some 1, 100⟩, true⟩ ∧
    fetchRateCached 60 ⟨none, 0⟩ 10 none = ⟨none, ⟨none, 0⟩, true⟩ :=
  ⟨(C7_rate_cache 60 ⟨some 1, 100⟩ 130 1).1 rfl (by norm_num) (by decide) (by decide) (some 2),
   ((C7_rate_cache 60 ⟨some 1, 100⟩ 200 1).2.1 rfl (by norm_num) (by decide)).2,
   (C7_rate_cache 60 ⟨none, 0⟩ 10 1).2.2 rfl⟩

/-- C8 counterexample: a deposit of −5 — a non-positive amount — on an
existing unfrozen account does NOT fail with a validation error: it is
accepted, the balance drops from 10 to 5 and a `deposit` record for −5
is appended. -/
theorem C8_counterexample :
    (-5 : ℤ) ≤ 0 ∧
    deposit C8states.st 2 (-5) = .ok C8states.st' ∧
    balanceOfId C8states.st' 2 = some 5 := by
  refine ⟨by decide, by decide, by decide⟩


/-- C8 (amended): the deposit route validates only that the amount is a
number — any numeric amount, zero and negatives included, on an existing
unfrozen account is accepted, adds exactly `amount` to the balance and
appends exactly one `deposit` record. -/
theorem C8_deposit_any_amount (st : BankState) (uid : Nat) (amount : ℤ) (u : Account)
    (hu : findUserById st.users uid = some u) (hf : u.frozen = false) :
    deposit st uid amount = .ok (depositPost st uid amount) ∧
    balanceOfId (depositPost st uid amount) uid = some (u.balance + amount) := by
  constructor
  · unfold deposit
    rw [hu]
    simp [hf, depositPost]
  · unfold depositPost balanceOfId
    dsimp only
    rw [findUserById_updBalById, hu]
    simp [id_of_find hu]

/-- Witness for C8: a positive deposit of 7 on balance 10 gives 17. -/
theorem C8_deposit_any_amount_witness :
    deposit C8states.st 2 7 = .ok (depositPost C8states.st 2 7) ∧
    balanceOfId (depositPost C8states.st 2 7) 2 = some (10 + 7) :=
  C8_deposit_any_amount C8states.st 2 7 ⟨2, "bob", 10, false, false⟩
    (by decide) (by decide)


/-- C9: every failure mode of the admin transfer answers an error naming
the failing condition and, being a pure failure, mutates nothing; a
transfer that passes all checks debits the source and credits the
destination by the same amount — the sum of the two balances is
preserved — and appends the paired transfer_out / transfer_in records. -/
theorem C9_transfer (st : BankState) (f t : String) (amt : ℤ)
    (hf : f ≠ "") (ht : t ≠ "") (hamt : 0 < amt) :
    (findUserByName st.users f = none →
      adminTransfer st f t amt = .error (.badRequest "from user not found")) ∧
    (∀ fromRow, findUserByName st.users f = some fromRow →
      findUserByName st.users t = none →
      adminTransfer st f t amt = .error (.badRequest "to user not found")) ∧
    (∀ fromRow toRow, findUserByName st.users f = some fromRow →
      findUserByName st.users t = some toRow → fromRow.frozen = true →
      adminTransfer st f t amt = .error (.forbidden "from account is frozen")) ∧
    (∀ fromRow toRow, findUserByName st.users f = some fromRow →
      findUserByName st.users t = some toRow → fromRow.frozen = false →
      toRow.frozen = true →
      adminTransfer st f t amt = .error (.forbidden "to account is frozen")) ∧
    (∀ fromRow toRow, findUserByName st.users f = some fromRow →
      findUserByName st.users t = some toRow → fromRow.frozen = false →
      toRow.frozen = false → fromRow.balance < amt →
      adminTransfer st f t amt =
        .error (.badRequest "insufficient funds in from account")) ∧
    (∀ fromRow toRow, findUserByName st.users f = some fromRow →
      findUserByName st.users t = some toRow → fromRow.frozen = false →
      toRow.frozen = false → ¬ fromRow.balance < amt → f ≠ t →
      ∃ st', adminTransfer st f t amt = .ok st' ∧
        balanceOf st' f = some (fromRow.balance - amt) ∧
        balanceOf st' t = some (toRow.balance + amt) ∧
        (fromRow.balance - amt) + (toRow.balance + amt) =
          fromRow.balance + toRow.balance ∧
        st'.transactions = st.transactions ++
          [⟨some fromRow.id, "transfer_out", -amt, TxMeta.transferOut t⟩,
           ⟨some toRow.id, "transfer_in", amt, TxMeta.transferIn f⟩]) := by
  have hne : ¬(f = "" ∨ t = "") := by simp [hf, ht]
  have hpos : ¬ amt ≤ 0 := by omega
  refine ⟨?_, ?_, ?_, ?_, ?_, ?_⟩
  · intro h0
    simp [adminTransfer, hne, hpos, h0]
  · intro fr hfr h0
    simp [adminTransfer, hne, hpos, hfr, h0]
  · intro fr tr hfr htr hfz
    simp [adminTransfer, hne, hpos, hfr, htr, hfz]
  · intro fr tr hfr htr hfz htz
    simp [adminTransfer, hne, hpos, hfr, htr, hfz, htz]
  · intro fr tr hfr htr hfz htz hbal
    simp [adminTransfer, hne, hpos, hfr, htr, hfz, htz, hbal]
  · intro fr tr hfr htr hfz htz hbal hft
    have h1 := username_of_find hfr
    have h2 := username_of_find htr
    have hft' : ¬(t = f) := fun hh => hft hh.symm
    have hfindf : findUserByName
        (updBalByName (updBalByName st.users f (-amt)) t amt) f =
        some { fr with balance := fr.balance + -amt } := by
      rw [findUserByName_updBalByName, findUserByName_updBalByName, hfr]
      simp [h1, hft]
    have hfindt : findUserByName
        (updBalByName (updBalByName st.users f (-amt)) t amt) t =
        some { tr with balance := tr.balance + amt } := by
      rw [findUserByName_updBalByName, findUserByName_updBalByName, htr]
      simp [h2, hft']
    have hrun : adminTransfer st f t amt = .ok
        { st with
          users := updBalByName (updBalByName st.users f (-amt)) t amt,
          transactions := st.transactions ++
            [⟨some fr.id, "transfer_out", -amt, TxMeta.transferOut t⟩] ++
            [⟨some tr.id, "transfer_in", amt, TxMeta.transferIn f⟩] } := by
      unfold adminTransfer
      rw [if_neg hne, if_neg hpos, hfr]
      simp only [htr, hfindf, hfindt]
      simp [hfz, htz, hbal]
    refine ⟨_, hrun, ?_, ?_, by omega, ?_⟩
    · unfold balanceOf
      dsimp only
      rw [hfindf]
      simp [sub_eq_add_neg]
    · unfold balanceOf
      dsimp only
      rw [hfindt]
      simp
    · dsimp only
      simp

/-- Witness for C9: the spec scenario — transfer of 100 from alice
(balance 950) to the frozen bob (balance 200) fails with the
frozen-account error. -/
theorem C9_transfer_witness :
    adminTransfer C9states.st "alice" "bob" 100 =
      .error (.forbidden "to account is frozen") :=
  ((C9_transfer C9states.st "alice" "bob" 100
      (by decide) (by decide) (by decide)).2.2.2.1)
    ⟨1, "alice", 950, false, false⟩ ⟨2, "bob", 200, true, false⟩
    (by decide) (by decide) (by decide) (by decide)


/-- C10: an admin balance adjustment naming an unknown username reports
success (the route has no not-found branch), changes no balance, and
still appends an `admin_adjust` transaction whose account reference is
NULL — an audit record with no matching balance mutation. -/
theorem C10_adjust_missing_user (st : BankState) (actor uname : String) (amount : ℤ)
    (hnone : findUserByName st.users uname = none) :
    (adminAdjust st actor uname amount).users = st.users ∧
    (adminAdjust st actor uname amount).transactions =
      st.transactions ++ [⟨none, "admin_adjust", amount, TxMeta.adminAdjust actor⟩] := by
  have hid : updBalByName st.users uname amount = st.users := by
    unfold updBalByName
    unfold findUserByName at hnone
    rw [List.find?_eq_none] at hnone
    have hpt : ∀ a ∈ st.users,
        (if a.username = uname then { a with balance := a.balance + amount } else a) = a := by
      intro a ha
      rw [if_neg]
      have := hnone a ha
      simpa using this
    rw [List.map_congr_left hpt]
    exact List.map_id' st.users
  constructor
  · show updBalByName st.users uname amount = st.users
    exact hid
  · show st.transactions ++
        [⟨(findUserByName (updBalByName st.users uname amount) uname).map (·.id),
          "admin_adjust", amount, TxMeta.adminAdjust actor⟩] =
      st.transactions ++ [⟨none, "admin_adjust", amount, TxMeta.adminAdjust actor⟩]
    rw [hid, hnone]
    rfl

/-- Witness for C10: adjusting the unknown user "ghost" by 77. -/
theorem C10_adjust_missing_user_witness :
    (adminAdjust C10states.st "admin" "ghost" 77).users = C10states.st.users ∧
    (adminAdjust C10states.st "admin" "ghost" 77).transactions =
      C10states.st.transactions ++
        [⟨none, "admin_adjust", 77, TxMeta.adminAdjust "admin"⟩] :=
  C10_adjust_missing_user C10states.st "admin" "ghost" 77 (by decide)

end Bank
